import Mathlib

/-!
Shallow embedding of the print-job relay.

Sources:
* `src/unnamed/part_000` — the queue server: in-memory `jobs` map, the
  submission route `POST /api/print/jobs`, the agent poll route
  `GET /api/print/jobs/pending`, the acknowledgment route
  `POST /api/print/jobs/:id/ack`, and `GET /healthz`.
* `src/index.js` — the standalone print agent; only `runCommand`
  (spawn with a kill timer) is relevant here.

Timestamps (`new Date().toISOString()`) are modelled as an opaque
totally-ordered clock `Time := Int` (epoch milliseconds); the store only
ever writes, compares and subtracts them.
-/

/-- Scalar JavaScript/JSON values as they appear in request bodies and job
fields (`null`, booleans, numbers, strings).  Objects and arrays never reach
the fields the handlers branch on. -/
inductive JVal where
  | null
  | bool (b : Bool)
  | num (n : Int)
  | str (s : String)
  deriving DecidableEq, Repr

/-- JavaScript truthiness of a scalar value: `null`, `false`, `0` and the
empty string are falsy, everything else is truthy. -/
def JVal.truthy : JVal → Bool
  | .null => false
  | .bool b => b
  | .num n => n != 0
  | .str s => s != ""

/-- Clock values; `new Date().toISOString()` modelled as epoch milliseconds. -/
def Time := Int

/-- A job record as built by `POST /api/print/jobs` (part_000 lines 56-68).
`errorDetail` is carried as an `Option` because the source never writes such
a field: it is absent (`none`) on every record the code ever builds. -/
structure Job where
  id : String
  agentId : JVal
  printerName : JVal
  type : JVal
  payload : JVal
  encoding : JVal
  cutType : JVal
  feedLines : JVal
  status : JVal
  result : JVal
  errorDetail : Option JVal
  createdAt : Int
  updatedAt : Option Int
  deriving DecidableEq, Repr

/-- The in-memory `jobs` map, `const jobs = new Map()`: a list of records in
insertion order, keyed by `Job.id`. -/
def Store := List Job

/-- `jobs.set(id, job)`: replace the entry whose key equals `job.id`,
keeping its position, or append a new entry (Map insertion-order
semantics). -/
def storeSet : List Job → Job → List Job
  | [], j => [j]
  | x :: rest, j => if x.id == j.id then j :: rest else x :: storeSet rest j

/-- `jobs.get(id)`: first record with the given id. -/
def storeGet (store : List Job) (id : String) : Option Job :=
  store.find? (fun x => x.id == id)

/-- Request body of `POST /api/print/jobs`; `none` is an absent field. -/
structure SubmitBody where
  agentId : Option JVal
  printerName : Option JVal
  type : Option JVal
  payload : Option JVal
  encoding : Option JVal
  cutType : Option JVal
  feedLines : Option JVal
  deriving DecidableEq, Repr

/-- `!x` on a possibly-absent field: absent or falsy. -/
def optFalsy : Option JVal → Bool
  | none => true
  | some v => !v.truthy

/-- `x || null`: a falsy or absent value collapses to `null`. -/
def jsOrNull : Option JVal → JVal
  | none => .null
  | some v => if v.truthy then v else .null

/-- Outcome of the submission route. -/
inductive SubmitResult where
  | badRequest
  | ok (jobId : String)
  deriving DecidableEq, Repr

/-- The job literal of part_000 lines 56-68: destructuring defaults
(`type = 'text'`, `encoding = 'utf8'`, `cutType = 'full'`, `feedLines = 3`)
apply when the field is absent, `agentId: agentId || null`,
`status: 'pending'`, `result: null`, `createdAt: new Date()...`. -/
def mkJob (body : SubmitBody) (fid : String) (now : Int) : Job :=
  { id := fid
    agentId := jsOrNull body.agentId
    printerName := body.printerName.getD .null
    type := body.type.getD (.str "text")
    payload := body.payload.getD .null
    encoding := body.encoding.getD (.str "utf8")
    cutType := body.cutType.getD (.str "full")
    feedLines := body.feedLines.getD (.num 3)
    status := .str "pending"
    result := .null
    errorDetail := none
    createdAt := now
    updatedAt := none }

/-- `POST /api/print/jobs` (part_000 lines 51-72), after the API-key check:
`if (!printerName || !payload) return 400`, otherwise build the job under a
fresh uuid `fid` and `jobs.set(id, job)`.  Returns the response together
with the store after the request. -/
def submitJob (store : List Job) (body : SubmitBody) (fid : String) (now : Int) :
    SubmitResult × List Job :=
  if optFalsy body.printerName || optFalsy body.payload then
    (.badRequest, store)
  else
    (.ok fid, storeSet store (mkJob body fid now))

/-- `req.query.agentId || null` (part_000 line 79): query parameters are
strings when present; an absent or empty one collapses to `null`. -/
def queryAgentId : Option String → JVal
  | none => .null
  | some s => if s = "" then .null else .str s

/-- The selection test of part_000 line 83:
`job.status === 'pending' && (!job.agentId || job.agentId === agentId)`. -/
def jobMatches (reqAgentId : JVal) (j : Job) : Bool :=
  j.status == .str "pending" && (!j.agentId.truthy || j.agentId == reqAgentId)

/-- The poll loop of part_000 lines 82-87: scan in insertion order, push
matches, `break` once five are collected. -/
def pollPendingAux (reqAgentId : JVal) : List Job → List Job → List Job
  | [], pending => pending
  | j :: rest, pending =>
    if jobMatches reqAgentId j then
      let pending' := pending ++ [j]
      if 5 ≤ pending'.length then pending' else pollPendingAux reqAgentId rest pending'
    else
      pollPendingAux reqAgentId rest pending

/-- Response of the poll route: `{ success: true, jobs: pending }`. -/
structure PollResponse where
  success : Bool
  jobs : List Job
  deriving DecidableEq, Repr

/-- `GET /api/print/jobs/pending` (part_000 lines 75-90), after the token
check.  The handler only reads the store; the returned store is the store
after the request. -/
def pendingJobsHandler (store : List Job) (q : Option String) :
    PollResponse × List Job :=
  ({ success := true, jobs := pollPendingAux (queryAgentId q) store [] }, store)

/-- The collected batch is the first five matches in insertion order. -/
theorem pollPendingAux_eq (a : JVal) :
    ∀ (l acc : List Job), acc.length < 5 →
      pollPendingAux a l acc = acc ++ (l.filter (jobMatches a)).take (5 - acc.length)
  | [], acc, _ => by simp [pollPendingAux]
  | j :: rest, acc, h => by
    by_cases m : jobMatches a j = true
    · rw [pollPendingAux, if_pos m]
      simp only []
      by_cases h5 : 5 ≤ (acc ++ [j]).length
      · rw [if_pos h5]
        have hlen : acc.length = 4 := by
          simp only [List.length_append, List.length_cons, List.length_nil] at h5
          omega
        rw [List.filter_cons_of_pos m]
        rw [hlen]
        simp
      · rw [if_neg h5]
        have hlt : (acc ++ [j]).length < 5 := by omega
        rw [pollPendingAux_eq a rest (acc ++ [j]) hlt]
        rw [List.filter_cons_of_pos m]
        have hstep : 5 - acc.length = (5 - (acc ++ [j]).length) + 1 := by
          simp only [List.length_append, List.length_cons, List.length_nil]
          omega
        rw [hstep, List.take_succ_cons]
        simp
    · rw [pollPendingAux, if_neg m, List.filter_cons_of_neg m]
      exact pollPendingAux_eq a rest acc h

theorem pollPendingAux_nil (a : JVal) (store : List Job) :
    pollPendingAux a store [] = (store.filter (jobMatches a)).take 5 := by
  have := pollPendingAux_eq a store [] (by simp)
  simpa using this

/-- Request body of `POST /api/print/jobs/:id/ack`; the route destructures
only `status` and `result` (part_000 line 101), but a body may of course
carry an `errorDetail` member as well. -/
structure AckBody where
  status : Option JVal
  result : Option JVal
  errorDetail : Option JVal
  deriving DecidableEq, Repr

/-- `if (x) job.f = x` (part_000 lines 102-103): the field is overwritten
only when present and truthy. -/
def applyField (old : JVal) : Option JVal → JVal
  | none => old
  | some v => if v.truthy then v else old

/-- The mutation the ack route performs on the addressed record:
`if (status) job.status = status; if (result) job.result = result;
job.updatedAt = new Date()...`.  `errorDetail` is never read. -/
def ackApply (job : Job) (body : AckBody) (now : Int) : Job :=
  { job with
    status := applyField job.status body.status
    result := applyField job.result body.result
    updatedAt := some now }

/-- Outcome of the ack route. -/
inductive AckResult where
  | notFound
  | ok
  deriving DecidableEq, Repr

/-- `POST /api/print/jobs/:id/ack` (part_000 lines 93-108), after the token
check: 404 when `jobs.get(id)` misses, otherwise mutate and
`jobs.set(id, job)`. -/
def ackJob (store : List Job) (id : String) (body : AckBody) (now : Int) :
    AckResult × List Job :=
  match store.find? (fun x => x.id == id) with
  | none => (.notFound, store)
  | some job => (.ok, storeSet store (ackApply job body now))

/-- Health statistics as the spec's table promises them
(`stats:{totalJobs,pendingJobs,processingJobs,completedJobs,errorJobs}`). -/
structure HealthStats where
  totalJobs : Nat
  pendingJobs : Nat
  processingJobs : Nat
  completedJobs : Nat
  errorJobs : Nat
  deriving DecidableEq, Repr

/-- Follows the spec's words (§4.5, §6): counts of jobs by each status
value, computed by a full scan of the store.  Stated only to compare the
source's health route against the spec. -/
def specHealthStats (store : List Job) : HealthStats :=
  { totalJobs := store.length
    pendingJobs := (store.filter (fun j => j.status == .str "pending")).length
    processingJobs := (store.filter (fun j => j.status == .str "processing")).length
    completedJobs := (store.filter (fun j => j.status == .str "done")).length
    errorJobs := (store.filter (fun j => j.status == .str "error")).length }

/-- Health response; `stats := none` models a JSON object with no `stats`
member. -/
structure HealthResponse where
  status : String
  time : Int
  stats : Option HealthStats
  deriving DecidableEq, Repr

/-- `GET /healthz` (part_000 line 111):
`res.json({ status: 'ok', time: new Date().toISOString() })` — the store is
not consulted and no statistics are emitted. -/
def healthz (_store : List Job) (now : Int) : HealthResponse :=
  { status := "ok", time := now, stats := none }

/-- Modelled from the spec: no Expiry Sweeper exists anywhere under the
sources (neither file sets an interval timer or deletes store entries), so
the TTL constant follows §4.6: 30 minutes, in milliseconds. -/
def TTL_MS : Int := 30 * 60 * 1000

/-- Modelled from the spec: the sweep interval of §4.6 (every 60 seconds),
in milliseconds.  Real-time scheduling itself is outside the embedding. -/
def SWEEP_INTERVAL_MS : Int := 60 * 1000

/-- Modelled from the spec: one tick of the absent Expiry Sweeper (§4.6):
for every job compute `now - createdAt` and delete the record when that
exceeds the TTL, regardless of `status`. -/
def sweep (now : Int) (store : List Job) : List Job :=
  store.filter (fun j => decide (now - j.createdAt ≤ TTL_MS))

theorem storeSet_find? (store : List Job) (j : Job) :
    (storeSet store j).find? (fun x => x.id == j.id) = some j := by
  induction store with
  | nil => simp [storeSet, List.find?]
  | cons x rest ih =>
    by_cases hx : (x.id == j.id) = true
    · rw [storeSet, if_pos hx]
      simp [List.find?]
    · rw [storeSet, if_neg hx]
      simp only [List.find?, hx]
      exact ih

theorem storeSet_append (store : List Job) (j : Job)
    (h : ∀ x ∈ store, x.id ≠ j.id) : storeSet store j = store ++ [j] := by
  induction store with
  | nil => simp [storeSet]
  | cons x rest ih =>
    have hx : (x.id == j.id) = false := by
      simpa using h x (by simp)
    rw [storeSet, if_neg (by simp [hx])]
    rw [ih (fun y hy => h y (by simp [hy]))]
    simp

theorem ackApply_errorDetail (job : Job) (body : AckBody) (now : Int) :
    (ackApply job body now).errorDetail = job.errorDetail := rfl

theorem ackApply_id (job : Job) (body : AckBody) (now : Int) :
    (ackApply job body now).id = job.id := rfl

/-- Acknowledgment never changes the `errorDetail` of any record in the
store: the route simply does not read that body field. -/
theorem ackJob_errorDetail_frame (store : List Job) (id : String)
    (body : AckBody) (now : Int) :
    ((ackJob store id body now).2).map (fun j => j.errorDetail)
      = store.map (fun j => j.errorDetail) := by
  rw [ackJob]
  induction store with
  | nil => simp [List.find?]
  | cons x rest ih =>
    by_cases hx : (x.id == id) = true
    · simp only [List.find?, hx]
      rw [storeSet, if_pos (by simp [ackApply_id, hx])]
      simp [ackApply_errorDetail]
    · simp only [List.find?, Bool.not_eq_true] at hx ⊢
      simp only [hx]
      cases hfind : rest.find? (fun x => x.id == id) with
      | none => simp
      | some job =>
        have hjid : job.id = id := by
          have h2 := List.find?_some hfind
          simpa using h2
        have hxj : (x.id == (ackApply job body now).id) = false := by
          rw [ackApply_id, hjid]
          simpa using hx
        simp only [hfind] at ih ⊢
        rw [storeSet, if_neg (by simp [hxj])]
        simpa using ih

/-- Callback events that can reach `runCommand`'s promise (index.js lines
42-58): the child's `close`, the child's `error`, and the kill timer
firing. -/
inductive RunEvent where
  | close (code : Int)
  | error (msg : String)
  | timeoutFire
  deriving DecidableEq, Repr

/-- How the promise of `runCommand` settles: `resolve({code,...})` or
`reject(new Error(msg))`. -/
inductive RunOutcome where
  | resolved (code : Int)
  | rejected (msg : String)
  deriving DecidableEq, Repr

/-- State of one `runCommand` invocation: whether the promise is settled
(and how), whether the kill timer is still armed, whether `p.kill()` was
issued, and whether the child reported `close`. -/
structure RunState where
  settled : Option RunOutcome
  timerActive : Bool
  killed : Bool
  exited : Bool
  deriving DecidableEq, Repr

/-- State right after `spawn`: timer armed, nothing settled. -/
def runCommandInit : RunState :=
  { settled := none, timerActive := true, killed := false, exited := false }

/-- JavaScript promise settlement: only the first resolve/reject counts. -/
def settleOnce (s : RunState) (r : RunOutcome) : RunState :=
  if s.settled.isSome then s else { s with settled := some r }

/-- One callback of index.js lines 46-56:
`close` clears the timer and resolves; `error` rejects; the timer, when
still armed, kills the child and rejects with `Timeout`. -/
def runCommandStep (s : RunState) : RunEvent → RunState
  | .close code => settleOnce { s with timerActive := false, exited := true } (.resolved code)
  | .error msg => settleOnce s (.rejected msg)
  | .timeoutFire =>
    if s.timerActive then
      settleOnce { s with timerActive := false, killed := true } (.rejected "Timeout")
    else s

/-- Run a whole sequence of callbacks from the post-spawn state. -/
def runCommandRun (evs : List RunEvent) : RunState :=
  evs.foldl runCommandStep runCommandInit

/-- The settled value, if any, is a rejection. -/
def errSettled (s : RunState) : Bool :=
  match s.settled with
  | some (.rejected _) => true
  | _ => false

/-- Reachability invariant of a `runCommand` invocation: while the timer is
armed the promise is unsettled or already rejected; once the timer is gone
the promise is settled and the child has exited or been killed; a kill
always comes with a rejection. -/
def RunInv (s : RunState) : Prop :=
  (s.timerActive = true → s.settled = none ∨ errSettled s = true)
  ∧ (s.timerActive = false → s.settled.isSome = true ∧ (s.exited = true ∨ s.killed = true))
  ∧ (s.killed = true → errSettled s = true)

theorem runInv_init : RunInv runCommandInit := by
  refine ⟨fun _ => Or.inl rfl, fun h => ?_, fun h => ?_⟩ <;>
    simp [runCommandInit] at h ⊢

theorem errSettled_settleOnce_err (s : RunState) (msg : String)
    (h : s.settled = none ∨ errSettled s = true) :
    errSettled (settleOnce s (.rejected msg)) = true := by
  rcases h with h | h
  · simp [settleOnce, h, errSettled]
  · have hs : s.settled.isSome = true := by
      unfold errSettled at h
      cases hv : s.settled with
      | none => rw [hv] at h; simp at h
      | some r => simp [hv]
    simp [settleOnce, hs, h]

theorem runInv_step (s : RunState) (e : RunEvent) (h : RunInv s) :
    RunInv (runCommandStep s e) := by
  obtain ⟨h1, h2, h3⟩ := h
  cases e with
  | close code =>
    refine ⟨?_, ?_, ?_⟩
    · intro hact
      exfalso
      by_cases hs : s.settled.isSome = true <;>
        simp [runCommandStep, settleOnce, hs] at hact
    · intro _
      by_cases hs : s.settled.isSome = true <;>
        simp [runCommandStep, settleOnce, hs]
    · intro hk
      have hks : s.killed = true := by
        by_cases hs : s.settled.isSome = true <;>
          simpa [runCommandStep, settleOnce, hs] using hk
      have herr := h3 hks
      have hs : s.settled.isSome = true := by
        unfold errSettled at herr
        cases hv : s.settled with
        | none => rw [hv] at herr; simp at herr
        | some r => simp
      simpa [runCommandStep, settleOnce, hs, errSettled] using herr
  | error msg =>
    refine ⟨?_, ?_, ?_⟩
    · intro hact
      have hact' : s.timerActive = true := by
        by_cases hs : s.settled.isSome = true <;>
          simpa [runCommandStep, settleOnce, hs] using hact
      exact Or.inr (errSettled_settleOnce_err s msg (h1 hact'))
    · intro hact
      have hact' : s.timerActive = false := by
        by_cases hs : s.settled.isSome = true <;>
          simpa [runCommandStep, settleOnce, hs] using hact
      obtain ⟨hsome, hex⟩ := h2 hact'
      constructor
      · by_cases hs : s.settled.isSome = true
        · simp [runCommandStep, settleOnce, hs]
        · simp [runCommandStep, settleOnce, hs]
      · by_cases hs : s.settled.isSome = true <;>
          simpa [runCommandStep, settleOnce, hs] using hex
    · intro hk
      have hks : s.killed = true := by
        by_cases hs : s.settled.isSome = true <;>
          simpa [runCommandStep, settleOnce, hs] using hk
      have herr := h3 hks
      have hsel : s.settled = none ∨ errSettled s = true := Or.inr herr
      exact errSettled_settleOnce_err s msg hsel
  | timeoutFire =>
    by_cases hact : s.timerActive = true
    · rw [runCommandStep, if_pos hact]
      have hsel := h1 hact
      refine ⟨?_, ?_, ?_⟩
      · intro habs
        exfalso
        by_cases hs : s.settled.isSome = true <;>
          simp [settleOnce, hs] at habs
      · intro _
        constructor
        · by_cases hs : s.settled.isSome = true <;>
            simp [settleOnce, hs]
        · refine Or.inr ?_
          by_cases hs : s.settled.isSome = true <;>
            simp [settleOnce, hs]
      · intro _
        exact errSettled_settleOnce_err
          { s with timerActive := false, killed := true } "Timeout" hsel
    · rw [runCommandStep, if_neg hact]
      exact ⟨h1, h2, h3⟩

theorem runInv_run (evs : List RunEvent) : RunInv (runCommandRun evs) := by
  rw [runCommandRun]
  have hgen : ∀ (l : List RunEvent) (s : RunState), RunInv s →
      RunInv (l.foldl runCommandStep s) := by
    intro l
    induction l with
    | nil => intro s hs; simpa using hs
    | cons e rest ih =>
      intro s hs
      simpa using ih (runCommandStep s e) (runInv_step s e hs)
  exact hgen evs runCommandInit runInv_init

/-- An unscoped pending job, as submitted with printer `P1` and payload
`hello`. -/
def exampleJob : Job :=
  { id := "j1", agentId := .null, printerName := .str "P1",
    type := .str "text", payload := .str "hello", encoding := .str "utf8",
    cutType := .str "full", feedLines := .num 3, status := .str "pending",
    result := .null, errorDetail := none, createdAt := 0, updatedAt := none }

/-- A pending job scoped to agent `A`. -/
def exampleScopedJob : Job :=
  { exampleJob with id := "j2", agentId := .str "A" }

/-- A job already acknowledged as `done`. -/
def exampleDoneJob : Job :=
  { exampleJob with id := "j3", status := .str "done" }

/-- C1: a poll returns exactly the first insertion-order matches — pending
jobs whose `agentId` is empty or equals the requested one — up to the batch
limit of five; a job scoped to agent `a` is never delivered to a different
non-empty agent `b`; and when nothing matches the result is the empty
sequence with `success: true`, not an error. -/
theorem c1_dispatch_filter (store : List Job) (q : Option String) :
    (pendingJobsHandler store q).1.success = true
    ∧ (pendingJobsHandler store q).1.jobs
        = (store.filter (jobMatches (queryAgentId q))).take 5
    ∧ (∀ j ∈ (pendingJobsHandler store q).1.jobs, ∀ a b : String,
        j.agentId = JVal.str a → a ≠ "" → q = some b → b ≠ "" → a = b)
    ∧ (store.filter (jobMatches (queryAgentId q)) = [] →
        (pendingJobsHandler store q).1.jobs = []
        ∧ (pendingJobsHandler store q).1.success = true) := by
  have hjobs : (pendingJobsHandler store q).1.jobs
      = (store.filter (jobMatches (queryAgentId q))).take 5 := by
    rw [pendingJobsHandler]
    exact pollPendingAux_nil _ _
  refine ⟨rfl, hjobs, ?_, ?_⟩
  · intro j hj a b hja ha hq hb
    rw [hjobs] at hj
    have hjf : j ∈ store.filter (jobMatches (queryAgentId q)) :=
      List.take_subset _ _ hj
    have hm : jobMatches (queryAgentId q) j = true := (List.mem_filter.mp hjf).2
    rw [jobMatches, hq, hja] at hm
    rw [queryAgentId] at hm
    rw [if_neg hb] at hm
    have ha' : JVal.truthy (JVal.str a) = true := by
      simp [JVal.truthy, ha]
    rw [ha'] at hm
    simp only [Bool.not_true, Bool.false_or, Bool.and_eq_true, beq_iff_eq] at hm
    exact JVal.str.inj hm.2
  · intro hnil
    rw [hjobs, hnil]
    exact ⟨rfl, rfl⟩

/-- C1 witness: a store holding an unscoped pending job, a job scoped to
agent `A` and a finished job, polled by agent `B`. -/
theorem c1_dispatch_filter_witness :
    (pendingJobsHandler [exampleJob, exampleScopedJob, exampleDoneJob]
        (some "B")).1.success = true
    ∧ (pendingJobsHandler [exampleJob, exampleScopedJob, exampleDoneJob]
          (some "B")).1.jobs
        = (([exampleJob, exampleScopedJob, exampleDoneJob]).filter
            (jobMatches (queryAgentId (some "B")))).take 5
    ∧ (∀ j ∈ (pendingJobsHandler [exampleJob, exampleScopedJob, exampleDoneJob]
          (some "B")).1.jobs, ∀ a b : String,
        j.agentId = JVal.str a → a ≠ "" → some "B" = some b → b ≠ "" → a = b)
    ∧ (([exampleJob, exampleScopedJob, exampleDoneJob]).filter
          (jobMatches (queryAgentId (some "B"))) = [] →
        (pendingJobsHandler [exampleJob, exampleScopedJob, exampleDoneJob]
            (some "B")).1.jobs = []
        ∧ (pendingJobsHandler [exampleJob, exampleScopedJob, exampleDoneJob]
            (some "B")).1.success = true) :=
  c1_dispatch_filter [exampleJob, exampleScopedJob, exampleDoneJob] (some "B")

/-- C2: the sweep interval is 60 seconds and, on a sweep tick, every record
whose age exceeds the 30-minute TTL is deleted regardless of its status,
while every younger record is retained. -/
theorem c2_sweep_ttl (now : Int) (store : List Job) :
    SWEEP_INTERVAL_MS = 60 * 1000
    ∧ TTL_MS = 30 * 60 * 1000
    ∧ (∀ j, now - j.createdAt > TTL_MS → j ∉ sweep now store)
    ∧ (∀ j ∈ store, now - j.createdAt ≤ TTL_MS → j ∈ sweep now store) := by
  refine ⟨rfl, rfl, ?_, ?_⟩
  · intro j hold hmem
    rw [sweep] at hmem
    have h2 := (List.mem_filter.mp hmem).2
    rw [decide_eq_true_eq] at h2
    omega
  · intro j hj hyoung
    rw [sweep]
    exact List.mem_filter.mpr ⟨hj, by rw [decide_eq_true_eq]; exact hyoung⟩

/-- C2 witness: at `now` = 31 minutes, a job created at time 0 is swept and
one created at 2 minutes is retained. -/
theorem c2_sweep_ttl_witness :
    ((31 * 60 * 1000 : Int) - exampleJob.createdAt > TTL_MS
      ∧ exampleJob ∉ sweep (31 * 60 * 1000)
          [exampleJob, { exampleJob with id := "j9", createdAt := 2 * 60 * 1000 }])
    ∧ ({ exampleJob with id := "j9", createdAt := 2 * 60 * 1000 }
          ∈ [exampleJob, { exampleJob with id := "j9", createdAt := 2 * 60 * 1000 }]
      ∧ (31 * 60 * 1000 : Int)
            - ({ exampleJob with id := "j9", createdAt := 2 * 60 * 1000 } : Job).createdAt
          ≤ TTL_MS
      ∧ { exampleJob with id := "j9", createdAt := 2 * 60 * 1000 }
          ∈ sweep (31 * 60 * 1000)
              [exampleJob, { exampleJob with id := "j9", createdAt := 2 * 60 * 1000 }]) :=
  ⟨⟨by decide,
    (c2_sweep_ttl (31 * 60 * 1000)
        [exampleJob, { exampleJob with id := "j9", createdAt := 2 * 60 * 1000 }]).2.2.1
      exampleJob (by decide)⟩,
   ⟨by decide, by decide,
    (c2_sweep_ttl (31 * 60 * 1000)
        [exampleJob, { exampleJob with id := "j9", createdAt := 2 * 60 * 1000 }]).2.2.2
      { exampleJob with id := "j9", createdAt := 2 * 60 * 1000 }
      (by decide) (by decide)⟩⟩

/-- C6: a poll leaves the Job Store exactly as it was — every record, its
status included, is unchanged and still `pending` for the returned jobs — so
an immediately repeated poll redelivers the same jobs. -/
theorem c6_dispatch_no_mutation (store : List Job) (q : Option String) :
    (pendingJobsHandler store q).2 = store
    ∧ (∀ j ∈ (pendingJobsHandler store q).1.jobs,
        j.status = JVal.str "pending" ∧ j ∈ store)
    ∧ pendingJobsHandler (pendingJobsHandler store q).2 q
        = pendingJobsHandler store q := by
  refine ⟨rfl, ?_, rfl⟩
  intro j hj
  have hjobs : (pendingJobsHandler store q).1.jobs
      = (store.filter (jobMatches (queryAgentId q))).take 5 := by
    rw [pendingJobsHandler]
    exact pollPendingAux_nil _ _
  rw [hjobs] at hj
  have hjf : j ∈ store.filter (jobMatches (queryAgentId q)) :=
    List.take_subset _ _ hj
  have hm := List.mem_filter.mp hjf
  refine ⟨?_, hm.1⟩
  have hmatch := hm.2
  rw [jobMatches] at hmatch
  have := (Bool.and_eq_true _ _).mp hmatch
  exact eq_of_beq this.1

/-- C6 witness: polling a two-job store twice. -/
theorem c6_dispatch_no_mutation_witness :
    (pendingJobsHandler [exampleJob, exampleScopedJob] none).2
        = [exampleJob, exampleScopedJob]
    ∧ (∀ j ∈ (pendingJobsHandler [exampleJob, exampleScopedJob] none).1.jobs,
        j.status = JVal.str "pending" ∧ j ∈ [exampleJob, exampleScopedJob])
    ∧ pendingJobsHandler
          (pendingJobsHandler [exampleJob, exampleScopedJob] none).2 none
        = pendingJobsHandler [exampleJob, exampleScopedJob] none :=
  c6_dispatch_no_mutation [exampleJob, exampleScopedJob] none

/-- C3: acknowledging an existing job applies only the body fields that are
present, leaves every omitted field of the record unchanged, and sets
`updatedAt` unconditionally; a body carrying only `result` leaves `status`
untouched while `updatedAt` is still refreshed. -/
theorem c3_ack_partial_update (store : List Job) (id : String) (body : AckBody)
    (now : Int) (job : Job)
    (h : store.find? (fun x => x.id == id) = some job) :
    (ackJob store id body now).1 = AckResult.ok
    ∧ (ackJob store id body now).2.find? (fun x => x.id == id)
        = some (ackApply job body now)
    ∧ (ackApply job body now).updatedAt = some now
    ∧ (body.status = none → (ackApply job body now).status = job.status)
    ∧ (body.result = none → (ackApply job body now).result = job.result)
    ∧ (ackApply job body now).id = job.id
    ∧ (ackApply job body now).agentId = job.agentId
    ∧ (ackApply job body now).printerName = job.printerName
    ∧ (ackApply job body now).type = job.type
    ∧ (ackApply job body now).payload = job.payload
    ∧ (ackApply job body now).encoding = job.encoding
    ∧ (ackApply job body now).cutType = job.cutType
    ∧ (ackApply job body now).feedLines = job.feedLines
    ∧ (ackApply job body now).createdAt = job.createdAt
    ∧ (ackApply job body now).errorDetail = job.errorDetail := by
  have hjid : job.id = id := by
    have h2 := List.find?_some h
    simpa using h2
  have hfind : (ackJob store id body now).2.find? (fun x => x.id == id)
      = some (ackApply job body now) := by
    rw [ackJob, h]
    have := storeSet_find? store (ackApply job body now)
    rw [ackApply_id, hjid] at this
    exact this
  refine ⟨by rw [ackJob, h], hfind, rfl, ?_, ?_,
    rfl, rfl, rfl, rfl, rfl, rfl, rfl, rfl, rfl, rfl⟩
  · intro hs
    rw [ackApply, hs]
    simp [applyField]
  · intro hr
    rw [ackApply, hr]
    simp [applyField]

/-- A result-only acknowledgment body, `{result: "X"}`. -/
def resultOnlyBody : AckBody :=
  { status := none, result := some (.str "X"), errorDetail := none }

/-- C3 witness: acknowledging the pending example job with `{result: "X"}`. -/
theorem c3_ack_partial_update_witness :
    [exampleJob].find? (fun x => x.id == "j1") = some exampleJob
    ∧ ((ackJob [exampleJob] "j1" resultOnlyBody 42).1 = AckResult.ok
      ∧ (ackJob [exampleJob] "j1" resultOnlyBody 42).2.find? (fun x => x.id == "j1")
          = some (ackApply exampleJob resultOnlyBody 42)
      ∧ (ackApply exampleJob resultOnlyBody 42).updatedAt = some 42
      ∧ (resultOnlyBody.status = none →
          (ackApply exampleJob resultOnlyBody 42).status = exampleJob.status)
      ∧ (resultOnlyBody.result = none →
          (ackApply exampleJob resultOnlyBody 42).result = exampleJob.result)
      ∧ (ackApply exampleJob resultOnlyBody 42).id = exampleJob.id
      ∧ (ackApply exampleJob resultOnlyBody 42).agentId = exampleJob.agentId
      ∧ (ackApply exampleJob resultOnlyBody 42).printerName = exampleJob.printerName
      ∧ (ackApply exampleJob resultOnlyBody 42).type = exampleJob.type
      ∧ (ackApply exampleJob resultOnlyBody 42).payload = exampleJob.payload
      ∧ (ackApply exampleJob resultOnlyBody 42).encoding = exampleJob.encoding
      ∧ (ackApply exampleJob resultOnlyBody 42).cutType = exampleJob.cutType
      ∧ (ackApply exampleJob resultOnlyBody 42).feedLines = exampleJob.feedLines
      ∧ (ackApply exampleJob resultOnlyBody 42).createdAt = exampleJob.createdAt
      ∧ (ackApply exampleJob resultOnlyBody 42).errorDetail = exampleJob.errorDetail) :=
  ⟨by decide,
   c3_ack_partial_update [exampleJob] "j1" resultOnlyBody 42 exampleJob (by decide)⟩

/-- C10: a `status` or `result` member that is present but falsy (empty
string, `null`, `false`, `0`) is not applied — the record's field is left as
it was, an acknowledgment can never blank a status or clear a result — yet
`updatedAt` is still refreshed. -/
theorem c10_ack_falsy_not_applied (store : List Job) (id : String)
    (body : AckBody) (now : Int) (job : Job)
    (h : store.find? (fun x => x.id == id) = some job) :
    (∀ v, body.status = some v → v.truthy = false →
      (ackApply job body now).status = job.status)
    ∧ (∀ v, body.result = some v → v.truthy = false →
      (ackApply job body now).result = job.result)
    ∧ (ackApply job body now).updatedAt = some now
    ∧ (ackJob store id body now).2.find? (fun x => x.id == id)
        = some (ackApply job body now) := by
  have hjid : job.id = id := by
    have h2 := List.find?_some h
    simpa using h2
  refine ⟨?_, ?_, rfl, ?_⟩
  · intro v hv htr
    rw [ackApply, hv]
    simp [applyField, htr]
  · intro v hv htr
    rw [ackApply, hv]
    simp [applyField, htr]
  · rw [ackJob, h]
    have := storeSet_find? store (ackApply job body now)
    rw [ackApply_id, hjid] at this
    exact this

/-- An acknowledgment body whose members are present but falsy:
`{status: "", result: 0}`. -/
def falsyAckBody : AckBody :=
  { status := some (.str ""), result := some (.num 0), errorDetail := none }

/-- C10 witness: a falsy-member acknowledgment on the example job. -/
theorem c10_ack_falsy_not_applied_witness :
    [exampleJob].find? (fun x => x.id == "j1") = some exampleJob
    ∧ ((∀ v, falsyAckBody.status = some v → v.truthy = false →
        (ackApply exampleJob falsyAckBody 42).status = exampleJob.status)
      ∧ (∀ v, falsyAckBody.result = some v → v.truthy = false →
        (ackApply exampleJob falsyAckBody 42).result = exampleJob.result)
      ∧ (ackApply exampleJob falsyAckBody 42).updatedAt = some 42
      ∧ (ackJob [exampleJob] "j1" falsyAckBody 42).2.find? (fun x => x.id == "j1")
          = some (ackApply exampleJob falsyAckBody 42)) :=
  ⟨by decide,
   c10_ack_falsy_not_applied [exampleJob] "j1" falsyAckBody 42 exampleJob (by decide)⟩

/-- An acknowledgment body carrying an `errorDetail`: `{errorDetail: "boom"}`. -/
def errDetailBody : AckBody :=
  { status := none, result := none, errorDetail := some (.str "boom") }

/-- C8 counterexample: acknowledging the example job with
`{errorDetail: "boom"}` does not store the supplied value — the record's
`errorDetail` stays absent, refuting the claim that a present `errorDetail`
is applied. -/
theorem c8_ack_errorDetail_counterexample :
    ¬ (((ackJob [exampleJob] "j1" errDetailBody 42).2.find?
          (fun x => x.id == "j1")).map (fun j => j.errorDetail)
        = some (some (JVal.str "boom"))) := by
  decide

/-- C8 amended: the Acknowledgment Handler ignores `errorDetail` — the route
never reads that body member, so the `errorDetail` of every record in the
store (and of the addressed record in particular) is unchanged by an
acknowledgment. -/
theorem c8_ack_errorDetail_ignored (store : List Job) (id : String)
    (body : AckBody) (now : Int) :
    ((ackJob store id body now).2).map (fun j => j.errorDetail)
        = store.map (fun j => j.errorDetail)
    ∧ (∀ job : Job, (ackApply job body now).errorDetail = job.errorDetail) :=
  ⟨ackJob_errorDetail_frame store id body now, fun _ => rfl⟩

/-- C8 witness: the errorDetail-carrying acknowledgment on the example
store. -/
theorem c8_ack_errorDetail_ignored_witness :
    ((ackJob [exampleJob] "j1" errDetailBody 42).2).map (fun j => j.errorDetail)
        = [exampleJob].map (fun j => j.errorDetail)
    ∧ (∀ job : Job, (ackApply job errDetailBody 42).errorDetail = job.errorDetail) :=
  c8_ack_errorDetail_ignored [exampleJob] "j1" errDetailBody 42

/-- C4: a submission whose `printerName` or `payload` is absent or empty
fails with `BadRequest` and leaves the Job Store untouched — no job is
created. -/
theorem c4_submit_bad_request (store : List Job) (body : SubmitBody)
    (fid : String) (now : Int)
    (h : body.printerName = none ∨ body.printerName = some (JVal.str "")
       ∨ body.payload = none ∨ body.payload = some (JVal.str "")) :
    submitJob store body fid now = (SubmitResult.badRequest, store) := by
  have hfalsy : optFalsy body.printerName = true ∨ optFalsy body.payload = true := by
    rcases h with h | h | h | h
    · exact Or.inl (by rw [h]; rfl)
    · exact Or.inl (by rw [h]; rfl)
    · exact Or.inr (by rw [h]; rfl)
    · exact Or.inr (by rw [h]; rfl)
  rw [submitJob]
  rcases hfalsy with h' | h' <;> rw [h'] <;> simp

/-- A submission body with a printer but no payload. -/
def noPayloadBody : SubmitBody :=
  { agentId := none, printerName := some (.str "P1"), type := none,
    payload := none, encoding := none, cutType := none, feedLines := none }

/-- C4 witness: submitting without `payload` against a one-job store. -/
theorem c4_submit_bad_request_witness :
    (noPayloadBody.printerName = none ∨ noPayloadBody.printerName = some (JVal.str "")
      ∨ noPayloadBody.payload = none ∨ noPayloadBody.payload = some (JVal.str ""))
    ∧ submitJob [exampleJob] noPayloadBody "fresh" 7
        = (SubmitResult.badRequest, [exampleJob]) :=
  ⟨by decide,
   c4_submit_bad_request [exampleJob] noPayloadBody "fresh" 7 (by decide)⟩

/-- C5: a valid submission under a fresh uuid appends exactly one new job,
with `status = pending` and the fresh id, returns that id, and the id
differs from every id already in the store. -/
theorem c5_submit_appends_fresh (store : List Job) (body : SubmitBody)
    (fid : String) (now : Int)
    (hp : optFalsy body.printerName = false)
    (hq : optFalsy body.payload = false)
    (hf : ∀ j ∈ store, j.id ≠ fid) :
    submitJob store body fid now
        = (SubmitResult.ok fid, store ++ [mkJob body fid now])
    ∧ (mkJob body fid now).id = fid
    ∧ (mkJob body fid now).status = JVal.str "pending"
    ∧ ∀ j ∈ store, j.id ≠ fid := by
  refine ⟨?_, rfl, rfl, hf⟩
  rw [submitJob, if_neg (by rw [hp, hq]; simp)]
  rw [storeSet_append store _ (fun x hx => hf x hx)]

/-- A fully valid submission body: `{printerName: "P1", payload: "hello"}`. -/
def validBody : SubmitBody :=
  { agentId := none, printerName := some (.str "P1"), type := none,
    payload := some (.str "hello"), encoding := none, cutType := none,
    feedLines := none }

/-- C5 witness: a valid submission with fresh id `fresh` against a one-job
store. -/
theorem c5_submit_appends_fresh_witness :
    optFalsy validBody.printerName = false
    ∧ optFalsy validBody.payload = false
    ∧ (∀ j ∈ [exampleJob], j.id ≠ "fresh")
    ∧ (submitJob [exampleJob] validBody "fresh" 7
          = (SubmitResult.ok "fresh", [exampleJob] ++ [mkJob validBody "fresh" 7])
      ∧ (mkJob validBody "fresh" 7).id = "fresh"
      ∧ (mkJob validBody "fresh" 7).status = JVal.str "pending"
      ∧ ∀ j ∈ [exampleJob], j.id ≠ "fresh") :=
  ⟨by decide, by decide, by decide,
   c5_submit_appends_fresh [exampleJob] validBody "fresh" 7
     (by decide) (by decide) (by decide)⟩

/-- C7 counterexample: on a store holding one `done` job the health route
returns no statistics at all (`stats` absent), refuting the claim that the
response carries per-status counts computed from the store. -/
theorem c7_health_counterexample :
    ¬ ((healthz [exampleDoneJob] 9).stats
        = some (specHealthStats [exampleDoneJob])) := by
  decide

/-- C7 amended: the health response contains `status: 'ok'` and the current
wall-clock time, and nothing else — the store is not scanned and no job
counts are reported, so an acknowledgment to `done` changes nothing in a
subsequent health check. -/
theorem c7_health_time_only (store : List Job) (now : Int) :
    healthz store now = { status := "ok", time := now, stats := none } := rfl

/-- C9: once a `runCommand` trace is complete (its kill timer has been
cleared by `close` or has fired), the promise is settled — the call cannot
hang — and the child process has either exited or been killed; a kill is
always accompanied by a rejection; and firing the timer from a live state
kills the child and rejects the promise. -/
theorem c9_runCommand_bounded (evs : List RunEvent) (s : RunState)
    (h : (runCommandRun evs).timerActive = false)
    (hs : s.settled = none ∨ errSettled s = true)
    (hact : s.timerActive = true) :
    (runCommandRun evs).settled.isSome = true
    ∧ ((runCommandRun evs).exited = true ∨ (runCommandRun evs).killed = true)
    ∧ ((runCommandRun evs).killed = true → errSettled (runCommandRun evs) = true)
    ∧ (runCommandStep s RunEvent.timeoutFire).killed = true
    ∧ errSettled (runCommandStep s RunEvent.timeoutFire) = true := by
  obtain ⟨h1, h2, h3⟩ := runInv_run evs
  obtain ⟨hsome, hex⟩ := h2 h
  refine ⟨hsome, hex, h3, ?_, ?_⟩
  · rw [runCommandStep, if_pos hact]
    by_cases hv : s.settled.isSome = true <;> simp [settleOnce, hv]
  · rw [runCommandStep, if_pos hact]
    exact errSettled_settleOnce_err
      { s with timerActive := false, killed := true } "Timeout" hs

/-- C9 witness: the trace in which no `close` arrives and the kill timer
fires, started from the post-spawn state. -/
theorem c9_runCommand_bounded_witness :
    (runCommandRun [RunEvent.timeoutFire]).timerActive = false
    ∧ (runCommandInit.settled = none ∨ errSettled runCommandInit = true)
    ∧ runCommandInit.timerActive = true
    ∧ ((runCommandRun [RunEvent.timeoutFire]).settled.isSome = true
      ∧ ((runCommandRun [RunEvent.timeoutFire]).exited = true
          ∨ (runCommandRun [RunEvent.timeoutFire]).killed = true)
      ∧ ((runCommandRun [RunEvent.timeoutFire]).killed = true →
          errSettled (runCommandRun [RunEvent.timeoutFire]) = true)
      ∧ (runCommandStep runCommandInit RunEvent.timeoutFire).killed = true
      ∧ errSettled (runCommandStep runCommandInit RunEvent.timeoutFire) = true) :=
  ⟨by decide, by decide, by decide,
   c9_runCommand_bounded [RunEvent.timeoutFire] runCommandInit
     (by decide) (by decide) (by decide)⟩
